import Mathlib

/-
Verification of the real-time messaging and bot-activity core of a social
media backend.  The definitions below are a shallow embedding of the Python
source: the WebSocket `ConnectionManager` (`app/core/websocket.py`), the
WebSocket protocol handler (`app/routes/websocket.py`), the bot service
(`app/services/bot_service.py`) and the message service
(`app/services/message_service.py`).  Database tables are embedded as lists
of records, timestamps as integers (seconds), and the session-mutating
Python methods as pure state-passing functions.
-/

set_option maxRecDepth 10000

/-! ## Basic character/list helpers (Python `str.lower/strip/split`, `in`) -/

/-- Whitespace test used by Python `str.strip()` / `str.split()` (ASCII part). -/
def isWsChar (c : Char) : Bool := c = ' ' || c = '\t' || c = '\n' || c = '\r'

/-- Python `str.strip()` on a list of characters. -/
def stripWs (cs : List Char) : List Char :=
  ((cs.dropWhile isWsChar).reverse.dropWhile isWsChar).reverse

/-- Python `s.lower().strip()`. -/
def lowerStrip (cs : List Char) : List Char := stripWs (cs.map Char.toLower)

/-- Python substring test `needle in hay` for strings. -/
def isSubstrOf (needle hay : List Char) : Bool :=
  (List.range (hay.length + 1)).any (fun i => needle.isPrefixOf (hay.drop i))

/-- Number of words of Python `s.split()` (split on whitespace runs, empties dropped). -/
def wordCount : List Char → Nat
  | [] => 0
  | c :: cs =>
    if isWsChar c then wordCount cs
    else wordCount (cs.dropWhile (fun d => !isWsChar d)) + 1
termination_by l => l.length
decreasing_by
  · simp only [List.length_cons]; omega
  · have h := (List.dropWhile_suffix (l := cs) (fun d => !isWsChar d)).length_le
    simp only [List.length_cons]; omega

/-! ## Response classification (`BotService._generate_message_response`) -/

inductive BotPersonality where
  | friendly | professional | humorous | educational | enthusiast | creative | analytical
deriving DecidableEq

/-- The five response buckets; `dflt` is the source's `"default"` key. -/
inductive RespBucket where
  | greeting | thanks | question | general | dflt
deriving DecidableEq

/-- Greeting trigger substrings (source line 527). -/
def greetingWords : List (List Char) :=
  ["hello".data, "hi".data, "hey".data, "greetings".data,
   "good morning".data, "good afternoon".data, "good evening".data]

/-- Gratitude trigger substrings (source line 529). -/
def thanksWords : List (List Char) :=
  ["thanks".data, "thank you".data, "thx".data, "ty".data, "appreciate".data]

/-- Question trigger substrings (source line 531; note: substring containment,
the loop variable is named `char` but tests multi-character strings with `in`). -/
def questionMarkers : List (List Char) :=
  ["?".data, "how".data, "what".data, "why".data, "when".data, "where".data, "who".data]

/-- Bucket assignment of `_generate_message_response` (source lines 524-536):
lowercase and strip the inbound text, then test the trigger lists in priority
order with Python substring containment, else word count. -/
def classifyMessage (message : List Char) : RespBucket :=
  let c := lowerStrip message
  if greetingWords.any (fun w => isSubstrOf w c) then .greeting
  else if thanksWords.any (fun w => isSubstrOf w c) then .thanks
  else if questionMarkers.any (fun w => isSubstrOf w c) then .question
  else if 3 < wordCount c then .general
  else .dflt

/-! ## Connection manager state (`app/core/websocket.py`, class ConnectionManager) -/

/-- The three in-memory maps of `ConnectionManager.__init__`.  Connections are
identified by numbers; an absent dictionary key is `none`. -/
structure CMState where
  activeConnections : Nat → Option (List Nat)
  onlineUsers : Nat → Bool
  typingUsers : Nat → Option (List Nat)

/-- Fresh manager: all maps empty. -/
def initCM : CMState :=
  { activeConnections := fun _ => none, onlineUsers := fun _ => false,
    typingUsers := fun _ => none }

/-- `ConnectionManager.connect`: create the user's connection list if absent,
append the connection, add the user to the online set.  (The unconditional
`broadcast_user_status` call it then makes is modelled by
`cmConnectWithStatus` below.) -/
def cmConnect (s : CMState) (userId conn : Nat) : CMState :=
  let l := (s.activeConnections userId).getD []
  { s with
    activeConnections := fun v => if v = userId then some (l ++ [conn]) else s.activeConnections v,
    onlineUsers := fun v => if v = userId then true else s.onlineUsers v }

/-- `ConnectionManager.disconnect`: if the user has an entry, remove the first
occurrence of the connection when present; if the remaining list is empty,
delete the entry and discard the user from the online set. -/
def cmDisconnect (s : CMState) (userId conn : Nat) : CMState :=
  match s.activeConnections userId with
  | none => s
  | some l =>
    let l2 := if l.contains conn then l.erase conn else l
    if l2.isEmpty then
      { s with
        activeConnections := fun v => if v = userId then none else s.activeConnections v,
        onlineUsers := fun v => if v = userId then false else s.onlineUsers v }
    else
      { s with
        activeConnections := fun v => if v = userId then some l2 else s.activeConnections v }

/-- `ConnectionManager.is_user_online`. -/
def cmIsUserOnline (s : CMState) (u : Nat) : Bool := s.onlineUsers u

/-- The user's registered connection list (empty when the key is absent). -/
def connList (s : CMState) (u : Nat) : List Nat := (s.activeConnections u).getD []

/-- A connect or disconnect call. -/
inductive CMOp where
  | connect (userId conn : Nat)
  | disconnect (userId conn : Nat)

def cmStep (s : CMState) : CMOp → CMState
  | .connect u c => cmConnect s u c
  | .disconnect u c => cmDisconnect s u c

/-- Run a finite sequence of connect/disconnect calls from a fresh manager. -/
def cmRun (ops : List CMOp) : CMState := ops.foldl cmStep initCM

/-- An outbound `user_status` event. -/
structure StatusEvent where
  userId : Nat
  status : String

/-- A presence broadcast: the event plus the delivery set chosen by
`broadcast_user_status` (every user holding a registered connection). -/
structure StatusBroadcast where
  event : StatusEvent
  sentTo : Nat → Bool

/-- `ConnectionManager.connect` including its final, unconditional
`broadcast_user_status(user_id, "online")` call: the broadcast is emitted on
every connect and delivered to all users registered after the connection was
added (the connecting user included). -/
def cmConnectWithStatus (s : CMState) (userId conn : Nat) : CMState × Option StatusBroadcast :=
  let s2 := cmConnect s userId conn
  (s2, some { event := { userId := userId, status := "online" },
              sentTo := fun v => (s2.activeConnections v).isSome })

/-! ## Typing map (`broadcast_typing_status` / `get_typing_users`) -/

/-- Python `set.add` on the list model of a set. -/
def typingAdd (u : Nat) (l : List Nat) : List Nat := if l.contains u then l else u :: l

/-- The typing-map update of `ConnectionManager.broadcast_typing_status`
(source lines 92-100): on `is_typing`, create the conversation's set if absent
and add the user; otherwise discard the user and delete the conversation's
entry when the set becomes empty. -/
def updateTypingMap (m : Nat → Option (List Nat)) (cid uid : Nat) (isTyping : Bool) :
    Nat → Option (List Nat) :=
  if isTyping then
    let l := (m cid).getD []
    fun v => if v = cid then some (typingAdd uid l) else m v
  else
    match m cid with
    | none => m
    | some l =>
      let l2 := l.erase uid
      if l2.isEmpty then (fun v => if v = cid then none else m v)
      else (fun v => if v = cid then some l2 else m v)

/-- Delivery set of the typing event (source lines 111-113): every listed
participant except the typing user. -/
def typingRecipients (uid : Nat) (participantIds : List Nat) : List Nat :=
  participantIds.filter (fun v => v != uid)

/-- `ConnectionManager.get_typing_users`: the conversation's set, or empty. -/
def getTypingUsers (m : Nat → Option (List Nat)) (cid : Nat) : List Nat := (m cid).getD []

/-- Run a sequence of `broadcast_typing_status` map updates from an empty map;
each element is (conversation id, user id, is_typing). -/
def typingOpsRun (ops : List (Nat × Nat × Bool)) : Nat → Option (List Nat) :=
  ops.foldl (fun m op => updateTypingMap m op.1 op.2.1 op.2.2) (fun _ => none)

/-- True when the map holds no entry, or a non-empty one, for `cid`. -/
def entryNonempty (m : Nat → Option (List Nat)) (cid : Nat) : Bool :=
  match m cid with
  | none => true
  | some l => !l.isEmpty

/-! ## Bot service data model (`app/models/bot.py`, `app/models/message.py`) -/

/-- The slice of the `users` table the messaging core reads. -/
structure UserRec where
  id : Nat
  isBot : Bool
deriving DecidableEq

/-- A `bots` row (`app/models/bot.py`, class Bot). -/
structure BotRec where
  id : Nat
  userId : Nat
  personality : BotPersonality
  isActive : Bool
  activityFrequency : Nat
  maxDailyActivities : Nat
  canPost : Bool
  canComment : Bool
  canMessage : Bool
  canCreateCommunities : Bool
  canListProducts : Bool
  totalPosts : Nat
  totalComments : Nat
  totalMessages : Nat
  totalProducts : Nat
  lastActivityAt : Option Int
deriving DecidableEq

inductive BotActivityType where
  | post | comment | message | communityCreate | communityJoin | productList | react
deriving DecidableEq

/-- A `bot_activities` row. -/
structure BotActivityRec where
  id : Nat
  botId : Nat
  activityType : BotActivityType
  description : String
  messageId : Option Nat
  success : Bool
  createdAt : Int
deriving DecidableEq

/-- A `messages` row. -/
structure MessageRec where
  id : Nat
  conversationId : Nat
  senderId : Nat
  content : List Char
  createdAt : Int
  isEdited : Bool
  isDeleted : Bool
deriving DecidableEq

/-- A `conversation_participants` row (fields the bot service reads). -/
structure ParticipantRec where
  conversationId : Nat
  userId : Nat
  isActive : Bool
deriving DecidableEq

/-- The database state seen by the bot service, as lists of rows plus
id counters for freshly inserted rows. -/
structure BotDB where
  users : List UserRec
  bots : List BotRec
  messages : List MessageRec
  participants : List ParticipantRec
  activities : List BotActivityRec
  nextMessageId : Nat
  nextActivityId : Nat
deriving DecidableEq

/-! ## Eligibility (`BotService.should_bot_act`) -/

/-- `now.replace(hour=0, minute=0, second=0, microsecond=0)` over epoch seconds. -/
def todayStart (now : Int) : Int := now - now % 86400

/-- Count of the bot's activities logged since midnight (source lines 211-217). -/
def countActivitiesToday (db : BotDB) (botId : Nat) (now : Int) : Nat :=
  (db.activities.filter (fun a => a.botId == botId && decide (todayStart now ≤ a.createdAt))).length

/-- `BotService.should_bot_act` (source lines 205-228): daily cap first, then
the frequency window against `last_activity_at`. -/
def should_bot_act (db : BotDB) (bot : BotRec) (now : Int) : Bool :=
  if bot.maxDailyActivities ≤ countActivitiesToday db bot.id now then false
  else
    match bot.lastActivityAt with
    | some l => if now - l < (bot.activityFrequency : Int) * 60 then false else true
    | none => true

/-! ## Response generation (`BotService._generate_message_response`) -/

/-- The response-template table of `_generate_message_response`
(source lines 471-521), personality by bucket. -/
def responseTable (p : BotPersonality) (b : RespBucket) : List String :=
  match p, b with
  | .friendly, .greeting => ["Hi there! 😊", "Hey! Great to hear from you!", "Hello! How are you doing?"]
  | .friendly, .question => ["That\x27s a great question! Let me think about that...", "Hmm, interesting! I\x27d say...", "Good point! From what I know..."]
  | .friendly, .thanks => ["You\x27re welcome! Happy to help! 😊", "No problem at all!", "Glad I could help!"]
  | .friendly, .general => ["Thanks for your message!", "I see what you mean!", "That\x27s interesting!", "Tell me more about that!"]
  | .friendly, .dflt => ["Thanks for reaching out! What can I help you with?", "Nice to hear from you! How\x27s everything going?"]
  | .professional, .greeting => ["Hello! How can I assist you today?", "Good day! What can I help you with?", "Greetings! How may I be of service?"]
  | .professional, .question => ["That\x27s an excellent question. Based on my knowledge...", "Let me provide some insight on that topic...", "From a professional standpoint..."]
  | .professional, .thanks => ["You\x27re welcome. I\x27m here to help.", "My pleasure. Don\x27t hesitate to ask if you need anything else.", "Glad to be of assistance."]
  | .professional, .general => ["I understand.", "That\x27s noted.", "I\x27ll keep that in mind.", "Thank you for sharing that information."]
  | .professional, .dflt => ["How can I help you today?", "What would you like to discuss?", "I\x27m here to assist with any questions you might have."]
  | .humorous, .greeting => ["Hey there, friend! 👋", "What\x27s up, buttercup? 🌻", "Greetings, earthling! 👽"]
  | .humorous, .question => ["Ooh, that\x27s a brain-teaser! Let me think... 🤔", "Great question! My circuits are firing! ⚡", "Hmm, that\x27s like asking a fish about water! 🐠"]
  | .humorous, .thanks => ["No prob, Bob! 😄", "You\x27re welcome! I\x27m just doing my bot-ly duties! 🤖", "Happy to help! What\x27s next on the agenda?"]
  | .humorous, .general => ["That\x27s wild! 🌪️", "Tell me more, I\x27m all ears! 👂", "Whoa, didn\x27t see that coming! 🎪"]
  | .humorous, .dflt => ["Hey! What\x27s cooking? 🍳", "What\x27s the word on the street? 🗣️", "Ready for some fun conversation? 🎈"]
  | .educational, .greeting => ["Hello! Ready to learn something new?", "Greetings! What would you like to explore today?", "Hi there! Let\x27s expand our knowledge together!"]
  | .educational, .question => ["Excellent question! Let me explain...", "That\x27s a fascinating topic. Here\x27s what I know...", "Great inquiry! Let me break this down for you..."]
  | .educational, .thanks => ["You\x27re welcome! Knowledge is meant to be shared.", "Happy to help with your learning journey!", "Glad I could contribute to your understanding."]
  | .educational, .general => ["That\x27s an interesting perspective!", "I appreciate you sharing that insight.", "Let\x27s explore this further.", "That\x27s worth considering."]
  | .educational, .dflt => ["What topic would you like to discuss?", "I\x27m here to help you learn and grow!", "What questions do you have today?"]
  | .enthusiast, .greeting => ["OMG HI!!! 🎉✨", "YAY! You\x27re here! 🌟", "HELLO FRIEND!!! 💫"]
  | .enthusiast, .question => ["THIS IS SUCH A GREAT QUESTION!!! 🤩", "OMG I LOVE THIS TOPIC!!! LET ME TELL YOU!!! 🚀", "WOW! That\x27s amazing! Here\x27s what I think!!! 💥"]
  | .enthusiast, .thanks => ["YOU\x27RE THE BEST!!! THANK YOU!!! 🌈", "AHHH THANK YOU SO MUCH!!! 💖", "YAY! I\x27m so happy I could help!!! 🎊"]
  | .enthusiast, .general => ["THAT\x27S AMAZING!!! ✨", "I\x27M SO EXCITED ABOUT THIS!!! 🎈", "THIS IS THE BEST!!! 💯"]
  | .enthusiast, .dflt => ["HI FRIEND!!! WHAT\x27S NEW??? 🌟", "YAY! Let\x27s chat!!! 💬", "I\x27m SO excited you\x27re here!!! 🎉"]
  | .creative, .greeting => ["Hello, creative soul! 🎨", "Greetings, fellow dreamer! 🌈", "Hi there, imagination enthusiast! ✨"]
  | .creative, .question => ["What a wonderfully creative question! Let me paint you a picture... 🎨", "That\x27s like asking an artist about colors! Here\x27s my creative take... 🌈", "Ooh, that\x27s inspiring! Let me think outside the box... 💡"]
  | .creative, .thanks => ["You\x27re welcome! Creativity flows both ways! 🌊", "Happy to collaborate on this creative journey! 🎭", "Thanks for the inspiration! Let\x27s keep creating! 🎨"]
  | .creative, .general => ["That\x27s beautifully unique! 🌟", "I love this perspective! 🎭", "Such creative thinking! 💫"]
  | .creative, .dflt => ["Hello! Ready to explore some creative ideas? 🎨", "What creative adventures shall we embark on? 🌈", "Let\x27s think of something amazing together! ✨"]
  | .analytical, .greeting => ["Greetings. How can I assist with your inquiry?", "Hello. What data would you like to analyze?", "Good day. What logical problem shall we solve?"]
  | .analytical, .question => ["Excellent question. Let me analyze this systematically...", "That\x27s a logical inquiry. Based on available data...", "Let me break this down analytically..."]
  | .analytical, .thanks => ["You\x27re welcome. Data-driven assistance is my specialty.", "Glad to provide logical clarity.", "Analysis complete. Happy to help further."]
  | .analytical, .general => ["Noted. That\x27s an interesting data point.", "I see. That\x27s worth analyzing.", "Understood. Let\x27s examine the facts.", "That\x27s a logical observation."]
  | .analytical, .dflt => ["How can I help you analyze something today?", "What data would you like me to process?", "Ready for some logical analysis?"]

/-- `random.choice(options)`, with the random draw supplied as an index. -/
def pickFromList (l : List String) (k : Nat) : String := l.getD (k % l.length) ""

/-- `BotService._generate_message_response`: classify the inbound text, then
pick from the personality's pool for the assigned bucket. -/
def generate_message_response (messageContent : List Char) (personality : BotPersonality)
    (pick : Nat) : String :=
  pickFromList (responseTable personality (classifyMessage messageContent)) pick

/-! ## Immediate bot response (`BotService.trigger_immediate_bot_response`) -/

def findUser (db : BotDB) (uid : Nat) : Option UserRec :=
  db.users.find? (fun u => u.id == uid)

/-- `User.is_bot` of the given user id (false when the row is missing). -/
def isBotUser (db : BotDB) (uid : Nat) : Bool :=
  match findUser db uid with
  | some u => u.isBot
  | none => false

/-- `db.query(Bot).filter(user_id == uid, is_active, can_message).first()`,
returning the row plus its index in the bots table. -/
def findQualifiedBotIdxFrom (bots : List BotRec) (uid : Nat) (i : Nat) : Option (Nat × BotRec) :=
  match bots with
  | [] => none
  | b :: rest =>
    if b.userId == uid && b.isActive && b.canMessage then some (i, b)
    else findQualifiedBotIdxFrom rest uid (i + 1)

def findQualifiedBotIdx (bots : List BotRec) (uid : Nat) : Option (Nat × BotRec) :=
  findQualifiedBotIdxFrom bots uid 0

/-- The `for bot_participant in bot_participants` loop (source lines 647-654):
the first listed bot participant whose bot row is active with messaging on. -/
def firstBotResponder (db : BotDB) : List ParticipantRec → Option (Nat × BotRec)
  | [] => none
  | p :: rest =>
    match findQualifiedBotIdx db.bots p.userId with
    | some ib => some ib
    | none => firstBotResponder db rest

/-- `BotService.trigger_immediate_bot_response` (source lines 611-697).
Returns the created response (if any) and the updated database.  The
0.5-2.0 s artificial typing delay changes no state and is elided; the random
template draw is the `pick` argument.  A missing sender row would raise in
Python (caught by the fire-and-forget caller), so it also produces no write. -/
def trigger_immediate_bot_response (db : BotDB) (conversationId triggeringMessageId : Nat)
    (now : Int) (pick : Nat) : Option MessageRec × BotDB :=
  match db.messages.find? (fun m => m.id == triggeringMessageId) with
  | none => (none, db)
  | some m =>
    match findUser db m.senderId with
    | none => (none, db)
    | some sender =>
      if sender.isBot then (none, db)
      else
        let botParticipants := db.participants.filter
          (fun p => p.conversationId == conversationId && p.isActive && isBotUser db p.userId)
        if botParticipants.isEmpty then (none, db)
        else
          match firstBotResponder db botParticipants with
          | none => (none, db)
          | some (i, bot) =>
            let responseContent := generate_message_response m.content bot.personality pick
            let response : MessageRec :=
              { id := db.nextMessageId, conversationId := conversationId,
                senderId := bot.userId, content := responseContent.data,
                createdAt := now, isEdited := false, isDeleted := false }
            let activity : BotActivityRec :=
              { id := db.nextActivityId, botId := bot.id, activityType := .message,
                description := "Real-time response to user " ++ toString m.senderId,
                messageId := some response.id, success := true, createdAt := now }
            (some response,
             { db with
                 messages := db.messages ++ [response],
                 activities := db.activities ++ [activity],
                 bots := db.bots.set i { bot with totalMessages := bot.totalMessages + 1 },
                 nextMessageId := db.nextMessageId + 1,
                 nextActivityId := db.nextActivityId + 1 })

/-! ## Scheduled response (`BotService.respond_to_messages`) -/

/-- Insertion into a list kept in descending `created_at` order. -/
def insertDescByCreated (m : MessageRec) : List MessageRec → List MessageRec
  | [] => [m]
  | x :: xs => if x.createdAt ≤ m.createdAt then m :: x :: xs else x :: insertDescByCreated m xs

/-- `order_by(Message.created_at.desc())`. -/
def sortDescByCreated (l : List MessageRec) : List MessageRec :=
  l.foldr insertDescByCreated []

/-- `BotService.respond_to_messages` (source lines 380-463): find recent
inbound messages in the bot's conversations with no later reply from the bot,
answer the most recent one, advance `last_activity_at` and the counter. -/
def respond_to_messages (db : BotDB) (bot : BotRec) (now : Int) (pick : Nat) : Bool × BotDB :=
  if !bot.canMessage then (false, db)
  else
    let convIds := (db.participants.filter
        (fun p => p.userId == bot.userId && p.isActive)).map (fun p => p.conversationId)
    if convIds.isEmpty then (false, db)
    else
      let yesterday := now - 86400
      let recent := sortDescByCreated (db.messages.filter (fun m =>
        convIds.contains m.conversationId && !(m.senderId == bot.userId)
          && decide (yesterday ≤ m.createdAt) && !m.isDeleted))
      let unanswered := recent.filter (fun msg =>
        (db.messages.find? (fun r => r.conversationId == msg.conversationId
          && r.senderId == bot.userId && decide (msg.createdAt < r.createdAt))).isNone)
      match unanswered with
      | [] => (false, db)
      | target :: _ =>
        let responseContent := generate_message_response target.content bot.personality pick
        let response : MessageRec :=
          { id := db.nextMessageId, conversationId := target.conversationId,
            senderId := bot.userId, content := responseContent.data,
            createdAt := now, isEdited := false, isDeleted := false }
        let activity : BotActivityRec :=
          { id := db.nextActivityId, botId := bot.id, activityType := .message,
            description := "Responded to message from user " ++ toString target.senderId,
            messageId := some response.id, success := true, createdAt := now }
        (true,
         { db with
             messages := db.messages ++ [response],
             activities := db.activities ++ [activity],
             bots := db.bots.map (fun x => if x.id == bot.id
               then { bot with totalMessages := bot.totalMessages + 1, lastActivityAt := some now }
               else x),
             nextMessageId := db.nextMessageId + 1,
             nextActivityId := db.nextActivityId + 1 })

/-! ## Protocol handler frame dispatch (`app/routes/websocket.py`, lines 68-268) -/

/-- A decoded inbound frame: `malformed` is text that fails JSON parsing;
`obj` carries the result of `message_data.get(...)` for the fields the
handler reads (an absent key is `none`). -/
inductive InFrame where
  | malformed
  | obj (ftype : Option String) (conversationId : Option Int) (content : Option String)
        (isTyping : Option Bool)

/-- Outbound events the dispatch itself produces (before any persistence). -/
inductive OutEvent where
  | errorEvent (msg : String)
  | pongEvent
deriving DecidableEq

/-- The validated frame kinds that proceed into persistence/broadcast logic. -/
inductive BusinessKind where
  | message | typing | readMark
deriving DecidableEq

/-- What one loop iteration does with a frame before touching the database:
`reply` sends one event to the offending connection only, `silent` is Python
`continue` with no output, `business` enters the persistence path.  No
alternative closes the connection: decode errors are caught and answered,
and the loop only exits on transport disconnect. -/
inductive HandlerAction where
  | reply (e : OutEvent)
  | silent
  | business (k : BusinessKind)
deriving DecidableEq

/-- Python falsiness of `conversation_id` (`if not conversation_id`):
a missing key or the integer 0. -/
def intFalsy : Option Int → Bool
  | none => true
  | some v => v == 0

/-- Python falsiness of `message_data.get("content", "").strip()`. -/
def contentMissing (c : Option String) : Bool :=
  (stripWs (c.getD "").data).isEmpty

/-- Rendering of `message_type` inside the unknown-type error f-string. -/
def showFrameType : Option String → String
  | some s => s
  | none => "None"

/-- The frame dispatch of `websocket_endpoint` (source lines 68-262): the
`message` kind validates both fields and reports a missing one with an error
event; the `typing` and `read` kinds silently `continue` when
`conversation_id` is falsy; `ping` answers `pong`; any other type value is
answered with an error event naming it; non-JSON input is answered with an
error event. -/
def handleFrame : InFrame → HandlerAction
  | .malformed => .reply (.errorEvent "Invalid JSON format")
  | .obj ftype cid content _ =>
    if ftype == some "message" then
      if intFalsy cid || contentMissing content then
        .reply (.errorEvent "Missing conversation_id or content")
      else .business .message
    else if ftype == some "typing" then
      if intFalsy cid then .silent else .business .typing
    else if ftype == some "read" then
      if intFalsy cid then .silent else .business .readMark
    else if ftype == some "ping" then .reply .pongEvent
    else .reply (.errorEvent ("Unknown message type: " ++ showFrameType ftype))

/-- True when the action sends an error event. -/
def sendsErrorEvent : HandlerAction → Bool
  | .reply (.errorEvent _) => true
  | _ => false

/-! ## Direct conversations (`app/services/message_service.py`, lines 17-60) -/

inductive ConvType where
  | direct | group
deriving DecidableEq

/-- A `conversations` row (fields `get_or_create_direct_conversation` uses). -/
structure ConvRec where
  id : Nat
  ctype : ConvType
  createdById : Option Nat
deriving DecidableEq

/-- A `conversation_participants` row for the message service. -/
structure CPart where
  conversationId : Nat
  userId : Nat
  isActive : Bool
deriving DecidableEq

/-- Database state seen by `get_or_create_direct_conversation`. -/
structure MsgDB where
  conversations : List ConvRec
  parts : List CPart
  nextConversationId : Nat
deriving DecidableEq

/-- The joined rows of the dedup lookup for one conversation: active
participant rows whose user is one of the two given users. -/
def matchingParticipantRows (db : MsgDB) (cid a b : Nat) : List CPart :=
  db.parts.filter (fun p => p.conversationId == cid && p.isActive
    && (p.userId == a || p.userId == b))

/-- The filter/group/having predicate of the lookup query (source lines
23-34): a DIRECT conversation with exactly two matching joined rows. -/
def isDirectCandidate (db : MsgDB) (a b : Nat) (c : ConvRec) : Bool :=
  c.ctype == ConvType.direct && (matchingParticipantRows db c.id a b).length == 2

/-- `[p.user_id for p in conversation.participants if p.is_active]`. -/
def activeParticipantIds (db : MsgDB) (cid : Nat) : List Nat :=
  (db.parts.filter (fun p => p.conversationId == cid && p.isActive)).map (fun p => p.userId)

/-- The verification step `set(participant_ids) == {user_id, other_user_id}`
(source lines 38-39). -/
def verifyPair (db : MsgDB) (a b : Nat) (c : ConvRec) : Bool :=
  let ids := activeParticipantIds db c.id
  ids.all (fun x => x == a || x == b) && ids.contains a && ids.contains b

/-- The create branch (source lines 43-60): insert a DIRECT conversation and
one active participant row per user (`is_active` defaults to true). -/
def createDirect (db : MsgDB) (a b : Nat) : ConvRec × MsgDB :=
  let c : ConvRec := { id := db.nextConversationId, ctype := .direct, createdById := some a }
  (c, { conversations := db.conversations ++ [c],
        parts := db.parts ++ [⟨c.id, a, true⟩, ⟨c.id, b, true⟩],
        nextConversationId := db.nextConversationId + 1 })

/-- `get_or_create_direct_conversation` (source lines 17-60): look the pair up
with the candidate query; if the first hit passes verification return it,
otherwise create a fresh DIRECT conversation. -/
def get_or_create_direct_conversation (db : MsgDB) (a b : Nat) : ConvRec × MsgDB :=
  match db.conversations.find? (isDirectCandidate db a b) with
  | some c => if verifyPair db a b c then (c, db) else createDirect db a b
  | none => createDirect db a b

/-- Conversation ids and participant conversation ids are below the insertion
counter (true of autoincrement ids). -/
def freshIds (db : MsgDB) : Prop :=
  (∀ c ∈ db.conversations, c.id < db.nextConversationId)
  ∧ (∀ p ∈ db.parts, p.conversationId < db.nextConversationId)

/-- The DIRECT shape invariant of the data model: a DIRECT conversation has
exactly two active participant rows, for distinct users. -/
def wfDirect (db : MsgDB) : Prop :=
  ∀ c ∈ db.conversations, c.ctype = ConvType.direct →
    (activeParticipantIds db c.id).length = 2 ∧ (activeParticipantIds db c.id).Nodup

/-- The conversation is DIRECT and its active participant set is exactly the
unordered pair, as the verification step checks it. -/
def directBetweenB (db : MsgDB) (a b : Nat) (c : ConvRec) : Bool :=
  c.ctype == ConvType.direct && verifyPair db a b c

/-- At most one DIRECT conversation exists between any unordered pair. -/
def atMostOneDirect (db : MsgDB) : Prop :=
  ∀ a b : Nat, (db.conversations.filter (directBetweenB db a b)).length ≤ 1

/-- The active participant rows of one conversation. -/
def activeRows (db : MsgDB) (cid : Nat) : List CPart :=
  db.parts.filter (fun p => p.conversationId == cid && p.isActive)

/-! ## Concrete fixtures used by witnesses -/

/-- A messaging-enabled active bot on user account 2. -/
def botW : BotRec :=
  { id := 50, userId := 2, personality := .friendly, isActive := true,
    activityFrequency := 60, maxDailyActivities := 10, canPost := true,
    canComment := true, canMessage := true, canCreateCommunities := false,
    canListProducts := true, totalPosts := 0, totalComments := 0,
    totalMessages := 0, totalProducts := 0, lastActivityAt := none }

/-- A message sent by the bot account (user 2). -/
def msgFromBotW : MessageRec :=
  { id := 100, conversationId := 7, senderId := 2, content := "hello".data,
    createdAt := 400, isEdited := false, isDeleted := false }

/-- The same message sent by the human account (user 1). -/
def msgFromHumanW : MessageRec :=
  { id := 100, conversationId := 7, senderId := 1, content := "hello".data,
    createdAt := 400, isEdited := false, isDeleted := false }

/-- Conversation 7 holds human 1 and bot account 2; the last message is the bot's. -/
def botDBW1 : BotDB :=
  { users := [⟨1, false⟩, ⟨2, true⟩], bots := [botW], messages := [msgFromBotW],
    participants := [⟨7, 1, true⟩, ⟨7, 2, true⟩], activities := [],
    nextMessageId := 101, nextActivityId := 1 }

/-- As `botDBW1`, but the triggering message is the human's. -/
def botDBW3 : BotDB :=
  { users := [⟨1, false⟩, ⟨2, true⟩], bots := [botW], messages := [msgFromHumanW],
    participants := [⟨7, 1, true⟩, ⟨7, 2, true⟩], activities := [],
    nextMessageId := 101, nextActivityId := 1 }

/-- Bot 9: cap 3, three activities already logged today. -/
def botCapW : BotRec :=
  { botW with id := 9, userId := 3, maxDailyActivities := 3, lastActivityAt := some 0 }

/-- Bot 10: cap free, last activity 1000 s ago with a 60-minute frequency. -/
def botFreqW : BotRec :=
  { botW with id := 10, userId := 4, maxDailyActivities := 3, lastActivityAt := some 99000 }

/-- Bot 11: cap free and frequency window elapsed. -/
def botFreeW : BotRec :=
  { botW with id := 11, userId := 5, maxDailyActivities := 3, lastActivityAt := some 90000 }

/-- Three activities for bot 9 logged at 90000 (after midnight 86400 of now = 100000). -/
def botDBW2 : BotDB :=
  { users := [], bots := [botCapW, botFreqW, botFreeW], messages := [], participants := [],
    activities := [⟨1, 9, .post, "a", none, true, 90000⟩, ⟨2, 9, .post, "b", none, true, 90000⟩,
                   ⟨3, 9, .post, "c", none, true, 90000⟩],
    nextMessageId := 1, nextActivityId := 4 }

/-- Manager state in which user 1 already holds one live connection. -/
def c6State : CMState := (cmConnectWithStatus initCM 1 10).1

/-- A typing frame with no `conversation_id` key. -/
def typingFrameNoConv : InFrame := .obj (some "typing") none none (some true)

/-- Empty conversation store. -/
def msgDBW : MsgDB := { conversations := [], parts := [], nextConversationId := 1 }

/-- One of the trigger substrings occurs in the normalized text. -/
def hasTrigger (ws : List (List Char)) (msg : List Char) : Bool :=
  ws.any (fun w => isSubstrOf w (lowerStrip msg))

/-! ## Helper lemmas -/

theorem find?_congr_fun {α : Type} (l : List α) (p q : α → Bool) (h : ∀ x, p x = q x) :
    l.find? p = l.find? q := by
  induction l with
  | nil => rfl
  | cons a t ih => simp [List.find?, h a, ih]

theorem contains_eq_decide_mem (l : List Nat) (x : Nat) : l.contains x = decide (x ∈ l) := by
  simp [List.contains]

/-! ## C1: no bot-to-bot immediate responses -/

/-- C1: if the triggering message was sent by a bot account, the immediate
response trigger returns none and leaves the database untouched: no message
row, no BotActivity row and no counter change. -/
theorem trigger_immediate_none_for_bot_sender (db : BotDB) (cid mid : Nat) (now : Int)
    (pick : Nat) (m : MessageRec) (u : UserRec)
    (hm : db.messages.find? (fun x => x.id == mid) = some m)
    (hu : findUser db m.senderId = some u) (hbot : u.isBot = true) :
    trigger_immediate_bot_response db cid mid now pick = (none, db) := by
  simp [trigger_immediate_bot_response, hm, hu, hbot]

/-- Witness for C1: in `botDBW1` the last message of conversation 7 was sent
by the bot account, so the trigger produces nothing and changes nothing. -/
theorem trigger_immediate_none_for_bot_sender_witness :
    trigger_immediate_bot_response botDBW1 7 100 500 0 = (none, botDBW1) :=
  trigger_immediate_none_for_bot_sender botDBW1 7 100 500 0 msgFromBotW ⟨2, true⟩
    (by decide) (by decide) rfl

/-! ## C2: eligibility boundary of `should_bot_act` -/

/-- C2: the eligibility check is false whenever the bot's activity count since
midnight reached `max_daily_activities` (whatever `last_activity_at` holds),
false whenever `last_activity_at` exists and lies within the frequency window,
and true when neither condition holds. -/
theorem should_bot_act_eligibility (db : BotDB) (bot : BotRec) (now : Int) :
    (bot.maxDailyActivities ≤ countActivitiesToday db bot.id now →
      should_bot_act db bot now = false)
    ∧ (∀ l, bot.lastActivityAt = some l → now - l < (bot.activityFrequency : Int) * 60 →
        should_bot_act db bot now = false)
    ∧ (countActivitiesToday db bot.id now < bot.maxDailyActivities →
        (∀ l, bot.lastActivityAt = some l → (bot.activityFrequency : Int) * 60 ≤ now - l) →
        should_bot_act db bot now = true) := by
  refine ⟨?_, ?_, ?_⟩
  · intro h
    unfold should_bot_act
    rw [if_pos h]
  · intro l hl hlt
    unfold should_bot_act
    by_cases hd : bot.maxDailyActivities ≤ countActivitiesToday db bot.id now
    · rw [if_pos hd]
    · rw [if_neg hd, hl]
      show (if now - l < (bot.activityFrequency : Int) * 60 then false else true) = false
      rw [if_pos hlt]
  · intro hc hl
    unfold should_bot_act
    rw [if_neg (Nat.not_le.mpr hc)]
    cases hll : bot.lastActivityAt with
    | none => rfl
    | some l =>
      have hge := hl l hll
      show (if now - l < (bot.activityFrequency : Int) * 60 then false else true) = true
      rw [if_neg (by omega)]

/-- Witness for C2 at `botDBW2` with now = 100000: bot 9 is capped (3 of 3
activities today), bot 10 is inside its frequency window, bot 11 is eligible. -/
theorem should_bot_act_eligibility_witness :
    should_bot_act botDBW2 botCapW 100000 = false
    ∧ should_bot_act botDBW2 botFreqW 100000 = false
    ∧ should_bot_act botDBW2 botFreeW 100000 = true :=
  ⟨(should_bot_act_eligibility botDBW2 botCapW 100000).1 (by decide),
   (should_bot_act_eligibility botDBW2 botFreqW 100000).2.1 99000 rfl (by decide),
   (should_bot_act_eligibility botDBW2 botFreeW 100000).2.2 (by decide)
     (by intro l hl; simp [botFreeW, botW] at hl ⊢; omega)⟩

/-! ## C4: online set matches non-empty connection lists -/

theorem cm_step_preserves (s : CMState) (op : CMOp)
    (h : ∀ u, s.onlineUsers u = !(connList s u).isEmpty ∧ s.activeConnections u ≠ some []) :
    ∀ u, (cmStep s op).onlineUsers u = !(connList (cmStep s op) u).isEmpty
      ∧ (cmStep s op).activeConnections u ≠ some [] := by
  cases op with
  | connect w c =>
    intro v
    by_cases hv : v = w
    · subst hv
      simp [cmStep, cmConnect, connList]
    · have hh := h v
      simp only [cmStep, cmConnect, connList, if_neg hv]
      exact hh
  | disconnect w c =>
    intro v
    cases hw : s.activeConnections w with
    | none =>
      simp only [cmStep, cmDisconnect, hw]
      exact h v
    | some l =>
      have hlne : l ≠ [] := by
        have h2 := (h w).2
        rw [hw] at h2
        intro e
        exact h2 (by rw [e])
      have hlfalse : l.isEmpty = false := by
        cases l with
        | nil => exact absurd rfl hlne
        | cons a t => rfl
      simp only [cmStep, cmDisconnect, hw]
      by_cases he : (if l.contains c then l.erase c else l).isEmpty = true
      · rw [if_pos he]
        constructor
        · show (if v = w then false else s.onlineUsers v)
            = !((if v = w then none else s.activeConnections v).getD []).isEmpty
          by_cases hv : v = w
          · rw [if_pos hv, if_pos hv]
            rfl
          · rw [if_neg hv, if_neg hv]
            exact (h v).1
        · show (if v = w then none else s.activeConnections v) ≠ some []
          by_cases hv : v = w
          · rw [if_pos hv]
            exact fun e => Option.noConfusion e
          · rw [if_neg hv]
            exact (h v).2
      · rw [if_neg he]
        rw [Bool.not_eq_true] at he
        constructor
        · show s.onlineUsers v
            = !((if v = w then some (if l.contains c then l.erase c else l)
                  else s.activeConnections v).getD []).isEmpty
          by_cases hv : v = w
          · rw [if_pos hv, hv]
            have h1 := (h w).1
            rw [connList, hw] at h1
            simp only [Option.getD_some] at h1 ⊢
            rw [h1, hlfalse, he]
          · rw [if_neg hv]
            exact (h v).1
        · show (if v = w then some (if l.contains c then l.erase c else l)
              else s.activeConnections v) ≠ some []
          by_cases hv : v = w
          · rw [if_pos hv]
            intro e
            have h3 := Option.some.inj e
            rw [h3] at he
            exact absurd he (by simp)
          · rw [if_neg hv]
            exact (h v).2

theorem cm_run_preserves (ops : List CMOp) :
    ∀ s, (∀ u, s.onlineUsers u = !(connList s u).isEmpty ∧ s.activeConnections u ≠ some []) →
      ∀ u, (ops.foldl cmStep s).onlineUsers u = !(connList (ops.foldl cmStep s) u).isEmpty
        ∧ (ops.foldl cmStep s).activeConnections u ≠ some [] := by
  induction ops with
  | nil => intro s h; exact h
  | cons op rest ih =>
    intro s h
    exact ih (cmStep s op) (cm_step_preserves s op h)

/-- C4: after any finite sequence of connect/disconnect calls starting from a
fresh manager, `is_user_online u` holds exactly when the user's registered
connection list is non-empty. -/
theorem online_iff_has_connection (ops : List CMOp) (u : Nat) :
    cmIsUserOnline (cmRun ops) u = !((connList (cmRun ops) u).isEmpty) := by
  have h0 : ∀ v, initCM.onlineUsers v = !(connList initCM v).isEmpty
      ∧ initCM.activeConnections v ≠ some [] := by
    intro v
    constructor
    · simp [initCM, connList]
    · simp [initCM]
  exact (cm_run_preserves ops initCM h0 u).1

/-! ## C6: presence broadcast on connect -/

/-- Counterexample to C6: user 1 already holds a live connection in
`c6State`, yet a second connect call still emits an online presence
broadcast — the source broadcasts unconditionally, not only on the first
connection. -/
theorem connect_rebroadcasts_when_already_online :
    (c6State.activeConnections 1).isSome = true
    ∧ ((cmConnectWithStatus c6State 1 11).2).isSome = true := by
  constructor <;> rfl

/-- C6 amended: every connect call (first connection or not) broadcasts an
"online" presence event for the connecting user, delivered to every user
registered after the connection is added — the connecting user included. -/
theorem connect_always_broadcasts_online (s : CMState) (u c : Nat) :
    ∃ b, (cmConnectWithStatus s u c).2 = some b
      ∧ b.event.userId = u ∧ b.event.status = "online"
      ∧ b.sentTo u = true
      ∧ ∀ v, b.sentTo v = ((cmConnect s u c).activeConnections v).isSome := by
  refine ⟨_, rfl, rfl, rfl, ?_, fun v => rfl⟩
  simp [cmConnectWithStatus, cmConnect]

/-! ## C7: response bucket assignment -/

/-- Counterexample to C7: the text "show" contains the interrogative word
"how" only inside another word, yet the classifier assigns the question
bucket, because the source tests substring containment. -/
theorem substring_question_show : classifyMessage "show".data = RespBucket.question := by
  decide

/-- C7 amended: the classifier assigns exactly one bucket in priority order
greeting, thanks, question, general, default, where each trigger test is
Python substring containment on the lowercased stripped text (so trigger
words occurring inside other words count), and general requires more than 3
whitespace-separated words. -/
theorem classify_bucket_characterization (msg : List Char) :
    (classifyMessage msg = RespBucket.greeting ↔ hasTrigger greetingWords msg = true)
    ∧ (classifyMessage msg = RespBucket.thanks ↔
        hasTrigger greetingWords msg = false ∧ hasTrigger thanksWords msg = true)
    ∧ (classifyMessage msg = RespBucket.question ↔
        hasTrigger greetingWords msg = false ∧ hasTrigger thanksWords msg = false
          ∧ hasTrigger questionMarkers msg = true)
    ∧ (classifyMessage msg = RespBucket.general ↔
        hasTrigger greetingWords msg = false ∧ hasTrigger thanksWords msg = false
          ∧ hasTrigger questionMarkers msg = false ∧ 3 < wordCount (lowerStrip msg))
    ∧ (classifyMessage msg = RespBucket.dflt ↔
        hasTrigger greetingWords msg = false ∧ hasTrigger thanksWords msg = false
          ∧ hasTrigger questionMarkers msg = false ∧ wordCount (lowerStrip msg) ≤ 3) := by
  simp only [classifyMessage, hasTrigger]
  by_cases hg : greetingWords.any (fun w => isSubstrOf w (lowerStrip msg)) = true
  · simp [hg]
  · rw [Bool.not_eq_true] at hg
    by_cases ht : thanksWords.any (fun w => isSubstrOf w (lowerStrip msg)) = true
    · simp [hg, ht]
    · rw [Bool.not_eq_true] at ht
      by_cases hq : questionMarkers.any (fun w => isSubstrOf w (lowerStrip msg)) = true
      · simp [hg, ht, hq]
      · rw [Bool.not_eq_true] at hq
        by_cases hn : 3 < wordCount (lowerStrip msg)
        · simp [hg, ht, hq, hn, Nat.not_lt]
        · simp [hg, ht, hq, hn, Nat.not_lt]
          omega

/-! ## C5: protocol error reporting -/

/-- Counterexample to C5: a `typing` frame with no `conversation_id` is a
known type with a required field missing, yet the handler silently skips it
(Python `continue`) and sends no error event at all. -/
theorem typing_missing_conv_no_error :
    handleFrame typingFrameNoConv = HandlerAction.silent
    ∧ sendsErrorEvent (handleFrame typingFrameNoConv) = false := by
  constructor <;> rfl

/-- C5 amended: malformed (non-JSON) text, unknown type values (the error
names the unrecognized kind) and `message` frames with a missing or falsy
required field are each answered with a single error event to the offending
connection only, and no protocol error closes the connection; but `typing`
and `read` frames with a missing or falsy `conversation_id` are silently
ignored — the handler continues without sending any event. -/
theorem protocol_error_replies (ftype : Option String) (cid : Option Int)
    (content : Option String) (it : Option Bool) :
    handleFrame InFrame.malformed = HandlerAction.reply (OutEvent.errorEvent "Invalid JSON format")
    ∧ ((intFalsy cid || contentMissing content) = true →
        handleFrame (InFrame.obj (some "message") cid content it)
          = HandlerAction.reply (OutEvent.errorEvent "Missing conversation_id or content"))
    ∧ (ftype ∉ [some "message", some "typing", some "read", some "ping"] →
        handleFrame (InFrame.obj ftype cid content it)
          = HandlerAction.reply (OutEvent.errorEvent ("Unknown message type: " ++ showFrameType ftype)))
    ∧ (intFalsy cid = true →
        handleFrame (InFrame.obj (some "typing") cid content it) = HandlerAction.silent)
    ∧ (intFalsy cid = true →
        handleFrame (InFrame.obj (some "read") cid content it) = HandlerAction.silent) := by
  refine ⟨rfl, ?_, ?_, ?_, ?_⟩
  · intro h
    simp [handleFrame, h]
  · intro h
    simp only [List.mem_cons, List.not_mem_nil, or_false] at h
    push_neg at h
    obtain ⟨h1, h2, h3, h4⟩ := h
    simp [handleFrame, beq_eq_false_iff_ne.mpr h1, beq_eq_false_iff_ne.mpr h2,
      beq_eq_false_iff_ne.mpr h3, beq_eq_false_iff_ne.mpr h4]
  · intro h
    simp [handleFrame, h]
  · intro h
    simp [handleFrame, h]

/-- Witness for C5 at concrete frames: an unknown type "bogus", a `message`
frame with falsy conversation id 0 and missing content, and `typing`/`read`
frames with falsy conversation id. -/
theorem protocol_error_replies_witness :
    handleFrame InFrame.malformed = HandlerAction.reply (OutEvent.errorEvent "Invalid JSON format")
    ∧ handleFrame (InFrame.obj (some "message") (some 0) none none)
        = HandlerAction.reply (OutEvent.errorEvent "Missing conversation_id or content")
    ∧ handleFrame (InFrame.obj (some "bogus") (some 0) none none)
        = HandlerAction.reply (OutEvent.errorEvent ("Unknown message type: " ++ showFrameType (some "bogus")))
    ∧ handleFrame (InFrame.obj (some "typing") (some 0) none none) = HandlerAction.silent
    ∧ handleFrame (InFrame.obj (some "read") (some 0) none none) = HandlerAction.silent :=
  ⟨(protocol_error_replies (some "bogus") (some 0) none none).1,
   (protocol_error_replies (some "bogus") (some 0) none none).2.1 (by decide),
   (protocol_error_replies (some "bogus") (some 0) none none).2.2.1 (by decide),
   (protocol_error_replies (some "bogus") (some 0) none none).2.2.2.1 (by decide),
   (protocol_error_replies (some "bogus") (some 0) none none).2.2.2.2 (by decide)⟩

/-! ## C10: the typing map never holds an empty set -/

theorem updateTypingMap_entryNonempty (m : Nat → Option (List Nat)) (c0 u : Nat) (b : Bool)
    (h : ∀ c, entryNonempty m c = true) :
    ∀ c, entryNonempty (updateTypingMap m c0 u b) c = true := by
  intro c
  cases b with
  | true =>
    show (match (if c = c0 then some (typingAdd u ((m c0).getD [])) else m c) with
          | none => true
          | some l => !l.isEmpty) = true
    by_cases hc : c = c0
    · rw [if_pos hc]
      cases hm : m c0 with
      | none => simp [typingAdd, hm]
      | some l0 =>
        have hh : (!l0.isEmpty) = true := by
          have h2 := h c0
          unfold entryNonempty at h2
          rw [hm] at h2
          exact h2
        simp only [Option.getD_some]
        unfold typingAdd
        by_cases hcon : l0.contains u = true
        · rw [if_pos hcon]
          exact hh
        · rw [if_neg hcon]
          rfl
    · rw [if_neg hc]
      exact h c
  | false =>
    cases hm : m c0 with
    | none =>
      have heq : updateTypingMap m c0 u false = m := by
        unfold updateTypingMap
        rw [hm]
        rfl
      rw [heq]
      exact h c
    | some l =>
      have heq : updateTypingMap m c0 u false
          = if (l.erase u).isEmpty then (fun v => if v = c0 then none else m v)
            else (fun v => if v = c0 then some (l.erase u) else m v) := by
        unfold updateTypingMap
        rw [hm]
        rfl
      rw [heq]
      by_cases he : (l.erase u).isEmpty = true
      · rw [if_pos he]
        show (match (if c = c0 then none else m c) with
              | none => true
              | some t => !t.isEmpty) = true
        by_cases hc : c = c0
        · rw [if_pos hc]
        · rw [if_neg hc]
          exact h c
      · rw [if_neg he]
        show (match (if c = c0 then some (l.erase u) else m c) with
              | none => true
              | some t => !t.isEmpty) = true
        by_cases hc : c = c0
        · rw [if_pos hc]
          show (!(l.erase u).isEmpty) = true
          rw [Bool.not_eq_true] at he
          rw [he]
          rfl
        · rw [if_neg hc]
          exact h c

theorem typingOpsRun_entryNonempty (ops : List (Nat × Nat × Bool)) :
    ∀ (m : Nat → Option (List Nat)), (∀ c, entryNonempty m c = true) →
      ∀ c, entryNonempty (ops.foldl (fun m op => updateTypingMap m op.1 op.2.1 op.2.2) m) c = true := by
  induction ops with
  | nil => intro m h; exact h
  | cons op rest ih =>
    intro m h
    exact ih (updateTypingMap m op.1 op.2.1 op.2.2)
      (updateTypingMap_entryNonempty m op.1 op.2.1 op.2.2 h)

/-- C10: after any sequence of typing updates from an empty map, no
conversation is bound to an empty set (the entry is deleted when its last
typist stops), and `get_typing_users` of a conversation with no entry is the
empty list. -/
theorem typing_map_no_empty_entries (ops : List (Nat × Nat × Bool)) (cid : Nat) :
    entryNonempty (typingOpsRun ops) cid = true
    ∧ (typingOpsRun ops cid = none → getTypingUsers (typingOpsRun ops) cid = []) := by
  constructor
  · exact typingOpsRun_entryNonempty ops (fun _ => none) (fun c => rfl) cid
  · intro h
    simp [getTypingUsers, h]

/-- Witness for C10: the sequence start-typing then stop-typing for user 2 in
conversation 1 deletes the entry, and the listing query returns []. -/
theorem typing_map_no_empty_entries_witness :
    entryNonempty (typingOpsRun [(1, 2, true), (1, 2, false)]) 1 = true
    ∧ getTypingUsers (typingOpsRun [(1, 2, true), (1, 2, false)]) 1 = [] :=
  ⟨(typing_map_no_empty_entries [(1, 2, true), (1, 2, false)] 1).1,
   (typing_map_no_empty_entries [(1, 2, true), (1, 2, false)] 1).2 (by decide)⟩

/-! ## C9: typing signals behave as set updates -/

theorem typingAdd_contains_self (u : Nat) (l : List Nat) : (typingAdd u l).contains u = true := by
  unfold typingAdd
  by_cases h : l.contains u = true
  · rw [if_pos h]
    exact h
  · rw [if_neg h, contains_eq_decide_mem]
    simp

theorem typingAdd_nodup (u : Nat) (l : List Nat) (h : l.Nodup) : (typingAdd u l).Nodup := by
  unfold typingAdd
  by_cases hc : l.contains u = true
  · rw [if_pos hc]
    exact h
  · rw [if_neg hc]
    rw [contains_eq_decide_mem] at hc
    simp only [decide_eq_true_eq] at hc
    exact List.Nodup.cons (by simpa using hc) h

theorem typingAdd_count_one (u : Nat) (l : List Nat) (h : l.Nodup) :
    (typingAdd u l).count u = 1 := by
  unfold typingAdd
  by_cases hc : l.contains u = true
  · rw [if_pos hc, contains_eq_decide_mem] at *
    exact List.count_eq_one_of_mem h (by simpa using hc)
  · rw [if_neg hc]
    rw [contains_eq_decide_mem] at hc
    simp only [decide_eq_true_eq] at hc
    rw [List.count_cons_self, List.count_eq_zero_of_not_mem (by simpa using hc)]

/-- C9: signaling `is_typing = true` puts the user in the conversation's
typing list; signaling false removes them; signaling true twice leaves
exactly one membership (set semantics); and the typing event is delivered to
every listed participant except the signaling user. -/
theorem typing_signal_set_semantics (m : Nat → Option (List Nat)) (cid uid : Nat)
    (ps : List Nat) (hnd : ((m cid).getD []).Nodup) :
    (getTypingUsers (updateTypingMap m cid uid true) cid).contains uid = true
    ∧ (getTypingUsers (updateTypingMap m cid uid false) cid).contains uid = false
    ∧ (getTypingUsers (updateTypingMap (updateTypingMap m cid uid true) cid uid true) cid).count uid = 1
    ∧ (∀ v, (typingRecipients uid ps).contains v = (ps.contains v && (v != uid))) := by
  refine ⟨?_, ?_, ?_, ?_⟩
  · have hred : getTypingUsers (updateTypingMap m cid uid true) cid
        = typingAdd uid ((m cid).getD []) := by
      simp [updateTypingMap, getTypingUsers]
    rw [hred]
    exact typingAdd_contains_self uid ((m cid).getD [])
  · cases hm : m cid with
    | none =>
      simp [updateTypingMap, getTypingUsers, hm]
    | some l =>
      rw [hm] at hnd
      simp only [Option.getD_some] at hnd
      by_cases he : (l.erase uid).isEmpty = true
      · simp [updateTypingMap, getTypingUsers, hm, he]
      · simp only [updateTypingMap, hm, if_neg he, getTypingUsers, if_pos rfl, Option.getD_some]
        rw [contains_eq_decide_mem]
        simp [List.Nodup.not_mem_erase hnd]
  · have hred1 : (updateTypingMap m cid uid true) cid
        = some (typingAdd uid ((m cid).getD [])) := by
      simp [updateTypingMap]
    have hred2 : getTypingUsers (updateTypingMap (updateTypingMap m cid uid true) cid uid true) cid
        = typingAdd uid (typingAdd uid ((m cid).getD [])) := by
      simp [getTypingUsers, updateTypingMap, hred1]
    rw [hred2]
    have hfix : typingAdd uid (typingAdd uid ((m cid).getD []))
        = typingAdd uid ((m cid).getD []) := by
      show (if (typingAdd uid ((m cid).getD [])).contains uid = true then _ else _) = _
      rw [if_pos (typingAdd_contains_self uid ((m cid).getD []))]
    rw [hfix]
    exact typingAdd_count_one uid ((m cid).getD []) hnd
  · intro v
    rw [typingRecipients, contains_eq_decide_mem, contains_eq_decide_mem]
    simp only [List.mem_filter]
    cases hvu : (v != uid) with
    | true => simp [hvu]
    | false => simp [hvu]

/-- Witness for C9 on the empty typing map, conversation 3, user 4,
participants [4, 5]: the three set facts plus exclusion of the signaler for
participant 5. -/
theorem typing_signal_set_semantics_witness :
    (getTypingUsers (updateTypingMap (fun _ => none) 3 4 true) 3).contains 4 = true
    ∧ (getTypingUsers (updateTypingMap (fun _ => none) 3 4 false) 3).contains 4 = false
    ∧ (getTypingUsers (updateTypingMap (updateTypingMap (fun _ => none) 3 4 true) 3 4 true) 3).count 4 = 1
    ∧ (typingRecipients 4 [4, 5]).contains 5 = (([4, 5] : List Nat).contains 5 && (5 != 4)) :=
  ⟨(typing_signal_set_semantics (fun _ => none) 3 4 [4, 5] (by simp)).1,
   (typing_signal_set_semantics (fun _ => none) 3 4 [4, 5] (by simp)).2.1,
   (typing_signal_set_semantics (fun _ => none) 3 4 [4, 5] (by simp)).2.2.1,
   (typing_signal_set_semantics (fun _ => none) 3 4 [4, 5] (by simp)).2.2.2 5⟩

/-! ## C3: rate-budget asymmetry of the two response pathways -/

theorem findQualifiedBotIdxFrom_get (bots : List BotRec) (uid : Nat) :
    ∀ i j b, findQualifiedBotIdxFrom bots uid i = some (j, b) →
      ∃ k, j = i + k ∧ bots.get? k = some b := by
  induction bots with
  | nil =>
    intro i j b h
    exact absurd h (by simp [findQualifiedBotIdxFrom])
  | cons hd tl ih =>
    intro i j b h
    unfold findQualifiedBotIdxFrom at h
    by_cases hc : (hd.userId == uid && hd.isActive && hd.canMessage) = true
    · rw [if_pos hc] at h
      simp only [Option.some.injEq, Prod.mk.injEq] at h
      exact ⟨0, by omega, by rw [← h.2]; rfl⟩
    · rw [if_neg hc] at h
      obtain ⟨k, hk, hg⟩ := ih (i + 1) j b h
      exact ⟨k + 1, by omega, by simpa using hg⟩

theorem firstBotResponder_get (db : BotDB) (ps : List ParticipantRec) (j : Nat) (b : BotRec)
    (h : firstBotResponder db ps = some (j, b)) : db.bots.get? j = some b := by
  induction ps with
  | nil => exact absurd h (by simp [firstBotResponder])
  | cons p rest ih =>
    unfold firstBotResponder at h
    cases hf : findQualifiedBotIdx db.bots p.userId with
    | some ib =>
      rw [hf] at h
      have hib : ib = (j, b) := Option.some.inj h
      rw [hib] at hf
      unfold findQualifiedBotIdx at hf
      obtain ⟨k, hk, hg⟩ := findQualifiedBotIdxFrom_get db.bots p.userId 0 j b hf
      rw [Nat.zero_add] at hk
      rw [hk]
      exact hg
    | none =>
      rw [hf] at h
      exact ih h

theorem trigger_immediate_success_shape (db : BotDB) (cid mid : Nat) (now : Int) (pick : Nat)
    (r : MessageRec) (db2 : BotDB)
    (heq : trigger_immediate_bot_response db cid mid now pick = (some r, db2)) :
    ∃ i b, db.bots.get? i = some b ∧ r.senderId = b.userId
      ∧ db2.bots = db.bots.set i { b with totalMessages := b.totalMessages + 1 } := by
  simp only [trigger_immediate_bot_response] at heq
  split at heq
  · exact absurd heq (by simp)
  split at heq
  · exact absurd heq (by simp)
  split at heq
  · exact absurd heq (by simp)
  split at heq
  · exact absurd heq (by simp)
  split at heq
  · exact absurd heq (by simp)
  next m hm sender hu hbot hne i bot hfr =>
    simp only [Prod.mk.injEq, Option.some.injEq] at heq
    obtain ⟨hr, hdb⟩ := heq
    refine ⟨i, bot, firstBotResponder_get db _ i bot hfr, ?_, ?_⟩
    · rw [← hr]
    · rw [← hdb]

theorem respond_success_shape (db : BotDB) (bot : BotRec) (now : Int) (pick : Nat)
    (ok : Bool) (db2 : BotDB) (heq : respond_to_messages db bot now pick = (ok, db2))
    (hok : ok = true) :
    db2.bots = db.bots.map (fun x => if x.id == bot.id
      then { bot with totalMessages := bot.totalMessages + 1, lastActivityAt := some now }
      else x) := by
  subst hok
  simp only [respond_to_messages] at heq
  split at heq
  · exact absurd heq (by simp)
  split at heq
  · exact absurd heq (by simp)
  split at heq
  · exact absurd heq (by simp)
  next target rest =>
    simp only [Prod.mk.injEq] at heq
    rw [← heq.2]

/-- C3: a successful immediate response leaves the responding bot's
`last_activity_at` unchanged while incrementing `total_messages` by one (no
other bot row is touched); a successful scheduled response sets
`last_activity_at` to the current time and increments `total_messages`. -/
theorem response_rate_budget_asymmetry (db : BotDB) (cid mid : Nat) (now : Int) (pick : Nat) :
    ((trigger_immediate_bot_response db cid mid now pick).1.isSome = true →
      ∃ i b, db.bots.get? i = some b
        ∧ (∃ r, (trigger_immediate_bot_response db cid mid now pick).1 = some r
            ∧ r.senderId = b.userId)
        ∧ (trigger_immediate_bot_response db cid mid now pick).2.bots
            = db.bots.set i { b with totalMessages := b.totalMessages + 1 }
        ∧ BotRec.lastActivityAt { b with totalMessages := b.totalMessages + 1 }
            = b.lastActivityAt)
    ∧ (∀ bot : BotRec, (respond_to_messages db bot now pick).1 = true →
        (respond_to_messages db bot now pick).2.bots
          = db.bots.map (fun x => if x.id == bot.id
              then { bot with totalMessages := bot.totalMessages + 1, lastActivityAt := some now }
              else x)
        ∧ BotRec.lastActivityAt { bot with totalMessages := bot.totalMessages + 1, lastActivityAt := some now } = some now
        ∧ BotRec.totalMessages { bot with totalMessages := bot.totalMessages + 1, lastActivityAt := some now } = bot.totalMessages + 1) := by
  constructor
  · intro h
    have hpair : trigger_immediate_bot_response db cid mid now pick
        = (some ((trigger_immediate_bot_response db cid mid now pick).1.get h),
           (trigger_immediate_bot_response db cid mid now pick).2) := by
      rw [Option.some_get]
    obtain ⟨i, b, hget, hsender, hbots⟩ :=
      trigger_immediate_success_shape db cid mid now pick _ _ hpair
    exact ⟨i, b, hget, ⟨_, (Option.some_get h).symm, hsender⟩, hbots, rfl⟩
  · intro bot h
    refine ⟨?_, rfl, rfl⟩
    exact respond_success_shape db bot now pick _ _ rfl h

/-- Witness for C3 at `botDBW3`: the human message 100 in conversation 7
triggers the bot on user 2 (immediate path), and `respond_to_messages`
succeeds for the same bot (scheduled path). -/
theorem response_rate_budget_asymmetry_witness :
    (∃ i b, botDBW3.bots.get? i = some b
      ∧ (∃ r, (trigger_immediate_bot_response botDBW3 7 100 500 0).1 = some r
          ∧ r.senderId = b.userId)
      ∧ (trigger_immediate_bot_response botDBW3 7 100 500 0).2.bots
          = botDBW3.bots.set i { b with totalMessages := b.totalMessages + 1 }
      ∧ BotRec.lastActivityAt { b with totalMessages := b.totalMessages + 1 }
          = b.lastActivityAt)
    ∧ ((respond_to_messages botDBW3 botW 500 0).2.bots
        = botDBW3.bots.map (fun x => if x.id == botW.id
            then { botW with totalMessages := botW.totalMessages + 1, lastActivityAt := some 500 }
            else x)
      ∧ BotRec.lastActivityAt { botW with totalMessages := botW.totalMessages + 1, lastActivityAt := some (500 : Int) } = some 500
      ∧ BotRec.totalMessages { botW with totalMessages := botW.totalMessages + 1, lastActivityAt := some (500 : Int) } = botW.totalMessages + 1) :=
  ⟨(response_rate_budget_asymmetry botDBW3 7 100 500 0).1 (by decide),
   (response_rate_budget_asymmetry botDBW3 7 100 500 0).2 botW (by decide)⟩

/-! ## C8: DIRECT conversation dedup -/

theorem activeParticipantIds_eq (db : MsgDB) (cid : Nat) :
    activeParticipantIds db cid = (activeRows db cid).map (fun p => p.userId) := rfl

theorem matchingRows_comm (db : MsgDB) (cid a b : Nat) :
    matchingParticipantRows db cid a b = matchingParticipantRows db cid b a := by
  unfold matchingParticipantRows
  apply List.filter_congr
  intro p _
  rw [Bool.or_comm]

theorem isDirectCandidate_comm (db : MsgDB) (a b : Nat) (c : ConvRec) :
    isDirectCandidate db a b c = isDirectCandidate db b a c := by
  unfold isDirectCandidate
  rw [matchingRows_comm]

theorem verifyPair_comm (db : MsgDB) (a b : Nat) (c : ConvRec) :
    verifyPair db a b c = verifyPair db b a c := by
  simp only [verifyPair]
  have h1 : (activeParticipantIds db c.id).all (fun x => x == a || x == b)
      = (activeParticipantIds db c.id).all (fun x => x == b || x == a) := by
    congr 1
    funext x
    rw [Bool.or_comm]
  rw [h1]
  generalize (activeParticipantIds db c.id).all (fun x => x == b || x == a) = A
  generalize (activeParticipantIds db c.id).contains a = ca
  generalize (activeParticipantIds db c.id).contains b = cb
  cases A <;> cases ca <;> cases cb <;> rfl

theorem matchingRows_eq (db : MsgDB) (cid a b : Nat) :
    matchingParticipantRows db cid a b
      = (activeRows db cid).filter (fun p => p.userId == a || p.userId == b) := by
  unfold matchingParticipantRows activeRows
  rw [List.filter_filter]
  apply List.filter_congr
  intro p _
  cases h1 : (p.conversationId == cid) <;> cases h2 : p.isActive <;>
    cases h3 : (p.userId == a) <;> cases h4 : (p.userId == b) <;> rfl

theorem candidate_passes_verify (db : MsgDB) (a b : Nat) (c : ConvRec)
    (hwf : wfDirect db) (hc : c ∈ db.conversations)
    (hcand : isDirectCandidate db a b c = true) : verifyPair db a b c = true := by
  unfold isDirectCandidate at hcand
  rw [Bool.and_eq_true] at hcand
  obtain ⟨hdir, hlen⟩ := hcand
  rw [beq_iff_eq] at hdir hlen
  obtain ⟨hlen2, hnodup⟩ := hwf c hc hdir
  have hrows : (activeRows db c.id).length = 2 := by
    have h2 := hlen2
    rw [activeParticipantIds_eq, List.length_map] at h2
    exact h2
  rw [matchingRows_eq] at hlen
  have hall : ∀ p ∈ activeRows db c.id, (p.userId == a || p.userId == b) = true :=
    List.filter_length_eq_length.mp (by rw [hlen, hrows])
  have hallids : ∀ x ∈ activeParticipantIds db c.id, (x == a || x == b) = true := by
    intro x hx
    rw [activeParticipantIds_eq] at hx
    obtain ⟨p, hp, hpx⟩ := List.mem_map.mp hx
    rw [← hpx]
    exact hall p hp
  obtain ⟨x, y, hxy⟩ := List.length_eq_two.mp hlen2
  have hnd : x ≠ y := by
    rw [hxy] at hnodup
    have h3 := (List.nodup_cons.mp hnodup).1
    intro e
    exact h3 (by rw [e]; exact List.mem_singleton.mpr rfl)
  have hx1 := hallids x (by rw [hxy]; exact List.mem_cons_self x [y])
  have hy1 := hallids y (by rw [hxy]; simp)
  rw [Bool.or_eq_true, beq_iff_eq, beq_iff_eq] at hx1 hy1
  have hamem : a ∈ activeParticipantIds db c.id := by
    rw [hxy]
    rcases hx1 with h | h
    · rw [← h]; exact List.mem_cons_self x [y]
    · rcases hy1 with h2 | h2
      · rw [← h2]; simp
      · exact absurd (by rw [h, h2] : x = y) hnd
  have hbmem : b ∈ activeParticipantIds db c.id := by
    rw [hxy]
    rcases hy1 with h | h
    · rcases hx1 with h2 | h2
      · exact absurd (by rw [h, h2] : y = x) (Ne.symm hnd)
      · rw [← h2]; exact List.mem_cons_self x [y]
    · rw [← h]; simp
  simp only [verifyPair, Bool.and_eq_true]
  refine ⟨⟨List.all_eq_true.mpr hallids, ?_⟩, ?_⟩
  · rw [contains_eq_decide_mem]
    simpa using hamem
  · rw [contains_eq_decide_mem]
    simpa using hbmem

theorem verify_implies_candidate (db : MsgDB) (a b : Nat) (c : ConvRec)
    (hwf : wfDirect db) (hc : c ∈ db.conversations) (hdir : c.ctype = ConvType.direct)
    (hver : verifyPair db a b c = true) : isDirectCandidate db a b c = true := by
  simp only [verifyPair, Bool.and_eq_true] at hver
  obtain ⟨⟨hall, _⟩, _⟩ := hver
  obtain ⟨hlen2, _⟩ := hwf c hc hdir
  simp only [isDirectCandidate, Bool.and_eq_true]
  refine ⟨by rw [beq_iff_eq]; exact hdir, ?_⟩
  rw [beq_iff_eq, matchingRows_eq]
  have hfeq : (activeRows db c.id).filter (fun p => p.userId == a || p.userId == b)
      = activeRows db c.id := by
    rw [List.filter_eq_self]
    intro p hp
    have hm : p.userId ∈ activeParticipantIds db c.id := by
      rw [activeParticipantIds_eq]
      exact List.mem_map_of_mem _ hp
    exact List.all_eq_true.mp hall _ hm
  rw [hfeq]
  have h2 := hlen2
  rw [activeParticipantIds_eq, List.length_map] at h2
  exact h2

theorem get_or_create_found (db : MsgDB) (a b : Nat) (c : ConvRec)
    (hF : db.conversations.find? (isDirectCandidate db a b) = some c)
    (hver : verifyPair db a b c = true) :
    get_or_create_direct_conversation db a b = (c, db) := by
  unfold get_or_create_direct_conversation
  rw [hF]
  exact if_pos hver

theorem get_or_create_missing (db : MsgDB) (a b : Nat)
    (hF : db.conversations.find? (isDirectCandidate db a b) = none) :
    get_or_create_direct_conversation db a b = createDirect db a b := by
  unfold get_or_create_direct_conversation
  rw [hF]

theorem activeRows_createDirect_old (db : MsgDB) (a b cid : Nat)
    (hne : cid ≠ db.nextConversationId) :
    activeRows (createDirect db a b).2 cid = activeRows db cid := by
  simp only [createDirect, activeRows]
  rw [List.filter_append]
  have h2 : List.filter (fun p => p.conversationId == cid && p.isActive)
      ([⟨db.nextConversationId, a, true⟩, ⟨db.nextConversationId, b, true⟩] : List CPart)
      = [] := by
    simp [beq_eq_false_iff_ne.mpr (Ne.symm hne)]
  rw [h2, List.append_nil]

theorem activeIds_createDirect_old (db : MsgDB) (a b cid : Nat)
    (hne : cid ≠ db.nextConversationId) :
    activeParticipantIds (createDirect db a b).2 cid = activeParticipantIds db cid := by
  rw [activeParticipantIds_eq, activeParticipantIds_eq,
    activeRows_createDirect_old db a b cid hne]

theorem matchingRows_createDirect_old (db : MsgDB) (a b x y cid : Nat)
    (hne : cid ≠ db.nextConversationId) :
    matchingParticipantRows (createDirect db a b).2 cid x y
      = matchingParticipantRows db cid x y := by
  rw [matchingRows_eq, matchingRows_eq, activeRows_createDirect_old db a b cid hne]

theorem isDirectCandidate_createDirect_old (db : MsgDB) (a b x y : Nat) (c : ConvRec)
    (hne : c.id ≠ db.nextConversationId) :
    isDirectCandidate (createDirect db a b).2 x y c = isDirectCandidate db x y c := by
  unfold isDirectCandidate
  rw [matchingRows_createDirect_old db a b x y c.id hne]

theorem directBetweenB_createDirect_old (db : MsgDB) (a b x y : Nat) (c : ConvRec)
    (hne : c.id ≠ db.nextConversationId) :
    directBetweenB (createDirect db a b).2 x y c = directBetweenB db x y c := by
  simp only [directBetweenB, verifyPair]
  rw [activeIds_createDirect_old db a b c.id hne]

theorem activeRows_createDirect_new (db : MsgDB) (a b : Nat)
    (hfresh : ∀ p ∈ db.parts, p.conversationId < db.nextConversationId) :
    activeRows (createDirect db a b).2 db.nextConversationId
      = [⟨db.nextConversationId, a, true⟩, ⟨db.nextConversationId, b, true⟩] := by
  simp only [createDirect, activeRows]
  rw [List.filter_append]
  have h1 : List.filter (fun p => p.conversationId == db.nextConversationId && p.isActive)
      db.parts = [] := by
    rw [List.filter_eq_nil_iff]
    intro p hp
    have hlt := hfresh p hp
    simp [beq_eq_false_iff_ne.mpr (by omega : p.conversationId ≠ db.nextConversationId)]
  rw [h1]
  simp

theorem activeIds_createDirect_new (db : MsgDB) (a b : Nat)
    (hfresh : ∀ p ∈ db.parts, p.conversationId < db.nextConversationId) :
    activeParticipantIds (createDirect db a b).2 db.nextConversationId = [a, b] := by
  rw [activeParticipantIds_eq, activeRows_createDirect_new db a b hfresh]
  rfl

theorem isDirectCandidate_createDirect_new (db : MsgDB) (a b : Nat)
    (hfresh : ∀ p ∈ db.parts, p.conversationId < db.nextConversationId) :
    isDirectCandidate (createDirect db a b).2 a b (createDirect db a b).1 = true := by
  simp only [isDirectCandidate, Bool.and_eq_true]
  constructor
  · rfl
  · rw [show (createDirect db a b).1.id = db.nextConversationId from rfl,
      matchingRows_eq, activeRows_createDirect_new db a b hfresh]
    simp

theorem verifyPair_createDirect_new (db : MsgDB) (a b : Nat)
    (hfresh : ∀ p ∈ db.parts, p.conversationId < db.nextConversationId) :
    verifyPair (createDirect db a b).2 a b (createDirect db a b).1 = true := by
  simp only [verifyPair]
  rw [show (createDirect db a b).1.id = db.nextConversationId from rfl,
    activeIds_createDirect_new db a b hfresh]
  simp [List.contains]

theorem find?_createDirect (db : MsgDB) (a b : Nat) (hfresh : freshIds db)
    (hF : db.conversations.find? (isDirectCandidate db a b) = none) :
    (createDirect db a b).2.conversations.find?
      (isDirectCandidate (createDirect db a b).2 a b) = some (createDirect db a b).1 := by
  have hconvs : (createDirect db a b).2.conversations
      = db.conversations ++ [(createDirect db a b).1] := rfl
  rw [hconvs, List.find?_append]
  have hold : db.conversations.find? (isDirectCandidate (createDirect db a b).2 a b) = none := by
    rw [List.find?_eq_none]
    intro c hc hcand
    rw [isDirectCandidate_createDirect_old db a b a b c
      (by have := hfresh.1 c hc; omega)] at hcand
    exact (List.find?_eq_none.mp hF c hc) hcand
  rw [hold]
  rw [List.find?_cons_of_pos _ (isDirectCandidate_createDirect_new db a b hfresh.2)]
  rfl

theorem directBetween_new_pair (db : MsgDB) (a b x y : Nat)
    (hfresh : ∀ p ∈ db.parts, p.conversationId < db.nextConversationId)
    (hn : directBetweenB (createDirect db a b).2 x y (createDirect db a b).1 = true) :
    (x = a ∧ y = b) ∨ (x = b ∧ y = a) := by
  simp only [directBetweenB, verifyPair] at hn
  rw [show (createDirect db a b).1.id = db.nextConversationId from rfl,
    activeIds_createDirect_new db a b hfresh] at hn
  simp only [Bool.and_eq_true, List.all_cons, List.all_nil, Bool.or_eq_true, beq_iff_eq,
    contains_eq_decide_mem, decide_eq_true_eq, List.mem_cons, List.mem_singleton,
    List.not_mem_nil, or_false, and_true] at hn
  obtain ⟨⟨_, hA, hB⟩, hX, hY⟩ := hn
  omega

theorem atMostOne_createDirect (db : MsgDB) (a b : Nat)
    (hfresh : freshIds db) (hwf : wfDirect db) (hone : atMostOneDirect db)
    (hF : db.conversations.find? (isDirectCandidate db a b) = none) :
    atMostOneDirect (createDirect db a b).2 := by
  intro x y
  have hconvs : (createDirect db a b).2.conversations
      = db.conversations ++ [(createDirect db a b).1] := rfl
  rw [hconvs, List.filter_append]
  have hfo : db.conversations.filter (directBetweenB (createDirect db a b).2 x y)
      = db.conversations.filter (directBetweenB db x y) := by
    apply List.filter_congr
    intro c hc
    exact directBetweenB_createDirect_old db a b x y c (by have := hfresh.1 c hc; omega)
  rw [hfo]
  by_cases hn : directBetweenB (createDirect db a b).2 x y (createDirect db a b).1 = true
  · have hp := directBetween_new_pair db a b x y hfresh.2 hn
    have hold_empty : db.conversations.filter (directBetweenB db x y) = [] := by
      rw [List.filter_eq_nil_iff]
      intro c hc hcb
      have hdirc : c.ctype = ConvType.direct := by
        have hcb2 := hcb
        simp only [directBetweenB, Bool.and_eq_true] at hcb2
        exact beq_iff_eq.mp hcb2.1
      have hverc : verifyPair db x y c = true := by
        have hcb2 := hcb
        simp only [directBetweenB, Bool.and_eq_true] at hcb2
        exact hcb2.2
      have hvera : verifyPair db a b c = true := by
        rcases hp with ⟨hx, hy⟩ | ⟨hx, hy⟩
        · rw [← hx, ← hy]
          exact hverc
        · rw [verifyPair_comm, ← hx, ← hy]
          exact hverc
      have hcand := verify_implies_candidate db a b c hwf hc hdirc hvera
      exact (List.find?_eq_none.mp hF c hc) hcand
    rw [hold_empty]
    simp [List.filter, hn]
  · have hempty : List.filter (directBetweenB (createDirect db a b).2 x y)
        [(createDirect db a b).1] = [] := by
      rw [List.filter_eq_nil_iff]
      intro z hz
      rw [List.mem_singleton.mp hz]
      exact hn
    rw [hempty, List.append_nil]
    exact hone x y

/-- C8: under the data-model invariants (fresh autoincrement ids, DIRECT
conversations have exactly two distinct active participants, at most one
DIRECT conversation per unordered pair), calling
`get_or_create_direct_conversation` twice for distinct users A and B — in
either argument order on the second call — returns the conversation the
first call returned, and the at-most-one-DIRECT-per-pair invariant still
holds afterwards. -/
theorem direct_conversation_dedup (db : MsgDB) (a b : Nat) (hab : a ≠ b)
    (hfresh : freshIds db) (hwf : wfDirect db) (hone : atMostOneDirect db) :
    ((get_or_create_direct_conversation (get_or_create_direct_conversation db a b).2 a b).1
        = (get_or_create_direct_conversation db a b).1)
    ∧ ((get_or_create_direct_conversation (get_or_create_direct_conversation db a b).2 b a).1
        = (get_or_create_direct_conversation db a b).1)
    ∧ atMostOneDirect (get_or_create_direct_conversation db a b).2 := by
  cases hF : db.conversations.find? (isDirectCandidate db a b) with
  | some c =>
    have hcmem := List.mem_of_find?_eq_some hF
    have hcand := List.find?_some hF
    have hver := candidate_passes_verify db a b c hwf hcmem hcand
    have h1 : get_or_create_direct_conversation db a b = (c, db) :=
      get_or_create_found db a b c hF hver
    have hF2 : db.conversations.find? (isDirectCandidate db b a) = some c := by
      rw [find?_congr_fun db.conversations (isDirectCandidate db b a)
        (isDirectCandidate db a b) (fun z => isDirectCandidate_comm db b a z)]
      exact hF
    have hver2 : verifyPair db b a c = true := by
      rw [← verifyPair_comm]
      exact hver
    have h2 : get_or_create_direct_conversation db b a = (c, db) :=
      get_or_create_found db b a c hF2 hver2
    refine ⟨by simp [h1], by simp [h1, h2], ?_⟩
    rw [h1]
    exact hone
  | none =>
    have h1 : get_or_create_direct_conversation db a b = createDirect db a b :=
      get_or_create_missing db a b hF
    have hFn := find?_createDirect db a b hfresh hF
    have hvern := verifyPair_createDirect_new db a b hfresh.2
    have h2 : get_or_create_direct_conversation (createDirect db a b).2 a b
        = ((createDirect db a b).1, (createDirect db a b).2) :=
      get_or_create_found _ a b _ hFn hvern
    have hFn2 : (createDirect db a b).2.conversations.find?
        (isDirectCandidate (createDirect db a b).2 b a) = some (createDirect db a b).1 := by
      rw [find?_congr_fun _ (isDirectCandidate (createDirect db a b).2 b a)
        (isDirectCandidate (createDirect db a b).2 a b)
        (fun z => isDirectCandidate_comm _ b a z)]
      exact hFn
    have hvern2 : verifyPair (createDirect db a b).2 b a (createDirect db a b).1 = true := by
      rw [← verifyPair_comm]
      exact hvern
    have h3 : get_or_create_direct_conversation (createDirect db a b).2 b a
        = ((createDirect db a b).1, (createDirect db a b).2) :=
      get_or_create_found _ b a _ hFn2 hvern2
    refine ⟨by simp [h1, h2], by simp [h1, h3], ?_⟩
    rw [h1]
    exact atMostOne_createDirect db a b hfresh hwf hone hF

/-- Witness for C8 on the empty store: creating the 1-2 DIRECT conversation
then looking it up again (both argument orders) yields the same
conversation, and the dedup invariant holds afterwards. -/
theorem direct_conversation_dedup_witness :
    ((get_or_create_direct_conversation (get_or_create_direct_conversation msgDBW 1 2).2 1 2).1
        = (get_or_create_direct_conversation msgDBW 1 2).1)
    ∧ ((get_or_create_direct_conversation (get_or_create_direct_conversation msgDBW 1 2).2 2 1).1
        = (get_or_create_direct_conversation msgDBW 1 2).1)
    ∧ atMostOneDirect (get_or_create_direct_conversation msgDBW 1 2).2 :=
  direct_conversation_dedup msgDBW 1 2 (by decide)
    ⟨fun c hc => absurd hc (List.not_mem_nil c), fun p hp => absurd hp (List.not_mem_nil p)⟩
    (fun c hc => absurd hc (List.not_mem_nil c))
    (fun x y => by simp [msgDBW, atMostOneDirect])
